import Mathlib

/-!
Verification of the LCO ILP scheduler (sraaphorst/scheduler-lco-ilp).

Shallow embedding of the scheduling model: the priority (completion-metric)
curves of `common.py` / `input_parameters.py`, the time-slot grid, the
observation collection, the ILP constraint families and objective of
`lco_solver.py` / `solver.py`, and the decoding of a 0/1 solution back into a
slot-indexed schedule.  Real arithmetic of the source (Python floats) is
modelled exactly over the rationals.
-/

namespace Scheduler

/-- Python `int()` applied to a rational: truncation toward zero. -/
def pyInt (q : ℚ) : ℤ := if 0 ≤ q then ⌊q⌋ else ⌈q⌉

/-- The per-band curve coefficients `{m1, b1, m2, b2, xb, xb0, xc0}` of
`Observations.params` in `common.py` / `input_parameters.py`. -/
structure BandParams where
  m1 : ℚ
  b1 : ℚ
  m2 : ℚ
  b2 : ℚ
  xb : ℚ
  xb0 : ℚ
  xc0 : ℚ
deriving DecidableEq, Repr

/-- The body of the coefficient-spreading loop in `Observations.__init__`
(`common.py` lines 180-188): from the band's jump constant `m2v` and the
running offset `b1cur`, produce the band's coefficients and the next offset
(`b1 += m2[band] * 1.0 + b2`). -/
def spreadStep (m2v b1cur xbv : ℚ) : BandParams × ℚ :=
  let b2 := b1cur + 5 - m2v
  let m1 := (m2v * xbv + b2) / xbv ^ 2
  ({ m1 := m1, b1 := b1cur, m2 := m2v, b2 := b2, xb := xbv, xb0 := 0, xc0 := 0 },
   b1cur + m2v * 1 + b2)

/-- The coefficient table after `Observations.__init__` has run: the loop
visits bands `'3'`, `'2'`, `'1'` in that order with `m2 = {3:1, 2:6, 1:20}`,
`xb = 0.8` and initial offset `b1 = 0.2`; band `'4'` keeps its initial
all-zero entry. -/
def params (band : String) : BandParams :=
  let s3 := spreadStep 1 (1/5) (4/5)
  let s2 := spreadStep 6 s3.2 (4/5)
  let s1 := spreadStep 20 s2.2 (4/5)
  if band = "3" then s3.1
  else if band = "2" then s2.1
  else if band = "1" then s1.1
  else { m1 := 0, b1 := 0, m2 := 0, b2 := 0, xb := 4/5, xb0 := 0, xc0 := 0 }

/-- The piecewise completion-to-priority metric of
`Observations.calculate_priority` (`common.py` lines 236-257), parametrised by
the band's coefficient row.  The guard `if self.band[ii] == 3` in the source
compares a numpy string to the integer 3 and is never taken; the value it
would assign (`xb = 0.8`) coincides with `params[band].xb`, so `xb` is always
the table value. -/
def metricCurve (p : BandParams) (c : ℚ) : ℚ :=
  let xb := p.xb
  let b2 := p.b2 + p.xb0 + p.b1
  if c = 0 then 0
  else if c < xb then p.m1 * c ^ 2 + p.b1
  else if c < 1 then p.m2 * c + b2
  else p.m2 * 1 + b2 + p.xc0

/-- Priority of an observation of band `band` at completion fraction `c`, as
computed by `Observations.calculate_priority`. -/
def priorityOf (band : String) (c : ℚ) : ℚ := metricCurve (params band) c

/-- The quadratic first piece `m1 * c^2 + b1` of the metric. -/
def quadPiece (p : BandParams) (c : ℚ) : ℚ := p.m1 * c ^ 2 + p.b1

/-- The linear second piece `m2 * c + (b2 + xb0 + b1)` of the metric. -/
def linPiece (p : BandParams) (c : ℚ) : ℚ := p.m2 * c + (p.b2 + p.xb0 + p.b1)

lemma params_one :
    params "1" = { m1 := 105/4, b1 := 79/5, m2 := 20, b2 := 4/5, xb := 4/5,
                   xb0 := 0, xc0 := 0 } := by
  norm_num [params, spreadStep, show ("1" : String) ≠ "3" from by decide,
    show ("1" : String) ≠ "2" from by decide]

lemma params_two :
    params "2" = { m1 := 115/8, b1 := 27/5, m2 := 6, b2 := 22/5, xb := 4/5,
                   xb0 := 0, xc0 := 0 } := by
  norm_num [params, spreadStep, show ("2" : String) ≠ "3" from by decide]

lemma params_three :
    params "3" = { m1 := 125/16, b1 := 1/5, m2 := 1, b2 := 21/5, xb := 4/5,
                   xb0 := 0, xc0 := 0 } := by
  norm_num [params, spreadStep]

lemma params_four :
    params "4" = { m1 := 0, b1 := 0, m2 := 0, b2 := 0, xb := 4/5,
                   xb0 := 0, xc0 := 0 } := by
  norm_num [params, spreadStep, show ("4" : String) ≠ "3" from by decide,
    show ("4" : String) ≠ "2" from by decide, show ("4" : String) ≠ "1" from by decide]

lemma metricCurve_quad (p : BandParams) (c : ℚ) (h0 : c ≠ 0) (h : c < p.xb) :
    metricCurve p c = p.m1 * c ^ 2 + p.b1 := by
  simp only [metricCurve, h0, if_false, h, if_true]

lemma metricCurve_lin (p : BandParams) (c : ℚ) (h0 : c ≠ 0) (h : ¬ c < p.xb)
    (h1 : c < 1) : metricCurve p c = p.m2 * c + (p.b2 + p.xb0 + p.b1) := by
  simp only [metricCurve, h0, if_false, h, h1, if_true]

lemma metricCurve_top (p : BandParams) (c : ℚ) (h0 : c ≠ 0) (h : ¬ c < p.xb)
    (h1 : ¬ c < 1) : metricCurve p c = p.m2 * 1 + (p.b2 + p.xb0 + p.b1) + p.xc0 := by
  simp only [metricCurve, h0, if_false, h, h1, if_true]

lemma band_one_lower (c : ℚ) (h0 : 0 < c) (h1 : c ≤ 1) :
    79/5 < priorityOf "1" c := by
  have hc0 : c ≠ 0 := ne_of_gt h0
  rw [priorityOf, params_one]
  by_cases hq : c < (4/5 : ℚ)
  · rw [metricCurve_quad _ c hc0 hq]
    nlinarith [mul_pos h0 h0]
  · by_cases hl : c < 1
    · rw [metricCurve_lin _ c hc0 hq hl]
      simp only at hq ⊢
      push_neg at hq
      nlinarith
    · rw [metricCurve_top _ c hc0 hq hl]
      norm_num

lemma band_two_upper (c : ℚ) (h0 : 0 < c) (h1 : c ≤ 1) :
    priorityOf "2" c ≤ 79/5 := by
  have hc0 : c ≠ 0 := ne_of_gt h0
  rw [priorityOf, params_two]
  by_cases hq : c < (4/5 : ℚ)
  · rw [metricCurve_quad _ c hc0 hq]
    simp only at hq ⊢
    nlinarith
  · by_cases hl : c < 1
    · rw [metricCurve_lin _ c hc0 hq hl]
      simp only at hq ⊢
      nlinarith
    · rw [metricCurve_top _ c hc0 hq hl]
      norm_num

lemma band_two_lower (c : ℚ) (h0 : 0 < c) (h1 : c ≤ 1) :
    27/5 < priorityOf "2" c := by
  have hc0 : c ≠ 0 := ne_of_gt h0
  rw [priorityOf, params_two]
  by_cases hq : c < (4/5 : ℚ)
  · rw [metricCurve_quad _ c hc0 hq]
    nlinarith [mul_pos h0 h0]
  · by_cases hl : c < 1
    · rw [metricCurve_lin _ c hc0 hq hl]
      simp only at hq ⊢
      push_neg at hq
      nlinarith
    · rw [metricCurve_top _ c hc0 hq hl]
      norm_num

lemma band_three_upper (c : ℚ) (h0 : 0 < c) (h1 : c ≤ 1) :
    priorityOf "3" c ≤ 27/5 := by
  have hc0 : c ≠ 0 := ne_of_gt h0
  rw [priorityOf, params_three]
  by_cases hq : c < (4/5 : ℚ)
  · rw [metricCurve_quad _ c hc0 hq]
    simp only at hq ⊢
    nlinarith
  · by_cases hl : c < 1
    · rw [metricCurve_lin _ c hc0 hq hl]
      simp only at hq ⊢
      nlinarith
    · rw [metricCurve_top _ c hc0 hq hl]
      norm_num

lemma band_three_lower (c : ℚ) (h0 : 0 < c) (h1 : c ≤ 1) :
    1/5 < priorityOf "3" c := by
  have hc0 : c ≠ 0 := ne_of_gt h0
  rw [priorityOf, params_three]
  by_cases hq : c < (4/5 : ℚ)
  · rw [metricCurve_quad _ c hc0 hq]
    nlinarith [mul_pos h0 h0]
  · by_cases hl : c < 1
    · rw [metricCurve_lin _ c hc0 hq hl]
      simp only at hq ⊢
      push_neg at hq
      nlinarith
    · rw [metricCurve_top _ c hc0 hq hl]
      norm_num

lemma priorityOf_four_eq_zero (c : ℚ) : priorityOf "4" c = 0 := by
  rw [priorityOf, params_four]
  by_cases hc0 : c = 0
  · simp [metricCurve, hc0]
  · by_cases hq : c < (4/5 : ℚ)
    · rw [metricCurve_quad _ c hc0 hq]; ring
    · by_cases hl : c < 1
      · rw [metricCurve_lin _ c hc0 hq hl]; ring
      · rw [metricCurve_top _ c hc0 hq hl]; ring

/-- `f` tends to 0 as its argument tends to 0 from above (an ε-δ rendering of
"the priority tends to `priority(b, 0) = 0` as completion tends to 0⁺"). -/
def tendstoZeroFromRight (f : ℚ → ℚ) : Prop :=
  ∀ ε : ℚ, 0 < ε → ∃ δ : ℚ, 0 < δ ∧ ∀ c : ℚ, 0 < c → c < δ → |f c| < ε


/-- Round a rational to the nearest integer, ties to even (the rounding of
IEEE 754 round-to-nearest). -/
def roundEven (x : ℚ) : ℤ :=
  if x - ⌊x⌋ < 1/2 then ⌊x⌋
  else if 1/2 < x - ⌊x⌋ then ⌊x⌋ + 1
  else if Even ⌊x⌋ then ⌊x⌋ else ⌊x⌋ + 1

/-- Correct rounding of a real (rational) value to IEEE binary64: round to
nearest, ties to even, 53-bit significand.  Exponents are unbounded, which
agrees with binary64 on the normal range all values here live in.  This is the
semantics of every arithmetic operation performed by `common.py` /
`input_parameters.py` on Python floats. -/
def fl (q : ℚ) : ℚ :=
  if q = 0 then 0
  else if 0 < q then
    (roundEven (q * (2:ℚ) ^ ((52:ℤ) - Int.log 2 q)) : ℚ) * (2:ℚ) ^ (Int.log 2 q - 52)
  else
    -((roundEven (-q * (2:ℚ) ^ ((52:ℤ) - Int.log 2 (-q))) : ℚ) * (2:ℚ) ^ (Int.log 2 (-q) - 52))

lemma int_log_eq {q : ℚ} {e : ℤ} (h0 : 0 < q) (h1 : (2:ℚ) ^ e ≤ q)
    (h2 : q < (2:ℚ) ^ (e + 1)) : Int.log 2 q = e := by
  have hle : e ≤ Int.log 2 q := by
    rw [← Int.zpow_le_iff_le_log (by norm_num) h0]
    exact_mod_cast h1
  have hlt : Int.log 2 q < e + 1 := by
    rw [← Int.lt_zpow_iff_log_lt (by norm_num) h0]
    exact_mod_cast h2
  omega

lemma fl_eval_down (q : ℚ) (e n : ℤ) (h0 : 0 < q)
    (hle : (2:ℚ) ^ e ≤ q) (hlt : q < (2:ℚ) ^ (e + 1))
    (hn1 : (n : ℚ) ≤ q * (2:ℚ) ^ ((52:ℤ) - e))
    (hn2 : q * (2:ℚ) ^ ((52:ℤ) - e) - n < 1/2) :
    fl q = (n : ℚ) * (2:ℚ) ^ (e - 52) := by
  have hlog : Int.log 2 q = e := int_log_eq h0 hle hlt
  have hfloor : ⌊q * (2:ℚ) ^ ((52:ℤ) - e)⌋ = n := by
    rw [Int.floor_eq_iff]
    exact ⟨hn1, by push_cast at hn2 ⊢; linarith⟩
  rw [fl, if_neg (ne_of_gt h0), if_pos h0, hlog, roundEven, hfloor,
    if_pos (by push_cast at hn2 ⊢; linarith)]

lemma fl_eval_up (q : ℚ) (e n : ℤ) (h0 : 0 < q)
    (hle : (2:ℚ) ^ e ≤ q) (hlt : q < (2:ℚ) ^ (e + 1))
    (hn1 : (n : ℚ) ≤ q * (2:ℚ) ^ ((52:ℤ) - e))
    (hn2 : q * (2:ℚ) ^ ((52:ℤ) - e) < n + 1)
    (hn3 : 1/2 < q * (2:ℚ) ^ ((52:ℤ) - e) - n) :
    fl q = ((n : ℚ) + 1) * (2:ℚ) ^ (e - 52) := by
  have hlog : Int.log 2 q = e := int_log_eq h0 hle hlt
  have hfloor : ⌊q * (2:ℚ) ^ ((52:ℤ) - e)⌋ = n := by
    rw [Int.floor_eq_iff]
    exact ⟨hn1, by push_cast at hn2 ⊢; linarith⟩
  rw [fl, if_neg (ne_of_gt h0), if_pos h0, hlog, roundEven, hfloor,
    if_neg (by push_cast at hn3 ⊢; linarith),
    if_pos (by push_cast at hn3 ⊢; linarith)]
  push_cast
  ring

lemma fl_eval_tie_odd (q : ℚ) (e n : ℤ) (h0 : 0 < q)
    (hle : (2:ℚ) ^ e ≤ q) (hlt : q < (2:ℚ) ^ (e + 1))
    (hn1 : (n : ℚ) ≤ q * (2:ℚ) ^ ((52:ℤ) - e))
    (hn2 : q * (2:ℚ) ^ ((52:ℤ) - e) - n = 1/2)
    (hodd : ¬ Even n) :
    fl q = ((n : ℚ) + 1) * (2:ℚ) ^ (e - 52) := by
  have hlog : Int.log 2 q = e := int_log_eq h0 hle hlt
  have hfloor : ⌊q * (2:ℚ) ^ ((52:ℤ) - e)⌋ = n := by
    rw [Int.floor_eq_iff]
    exact ⟨hn1, by push_cast at hn2 ⊢; linarith⟩
  rw [fl, if_neg (ne_of_gt h0), if_pos h0, hlog, roundEven, hfloor,
    if_neg (by push_cast at hn2 ⊢; linarith),
    if_neg (by push_cast at hn2 ⊢; linarith), if_neg hodd]
  push_cast
  ring

/-- The double nearest to the Python literal `0.2` (initial running offset `b1`, `common.py` line 179). -/
def fa : ℚ := fl (1/5)

lemma fa_val : fa = 3602879701896397/18014398509481984 := by
  rw [fa]
  rw [fl_eval_up (1/5) (-3) (7205759403792793) (by norm_num) (by norm_num)
    (by norm_num) (by norm_num) (by norm_num) (by norm_num)]
  norm_num

/-- The double nearest to the Python literal `0.8` (`xb`, `common.py` line 178). -/
def fx8 : ℚ := fl (4/5)

lemma fx8_val : fx8 = 3602879701896397/4503599627370496 := by
  rw [fx8]
  rw [fl_eval_up (4/5) (-1) (7205759403792793) (by norm_num) (by norm_num)
    (by norm_num) (by norm_num) (by norm_num) (by norm_num)]
  norm_num

/-- Band 3 spreading step, intermediate `b1 + 5.` of `b2 = b1 + 5. - m2[band]` (`common.py` line 181). -/
def ft3 : ℚ := fl (fa + 5)

lemma ft3_val : ft3 = 5854679515581645/1125899906842624 := by
  rw [ft3, fa_val]
  rw [fl_eval_up ((3602879701896397/18014398509481984) + 5) (2) (5854679515581644) (by norm_num) (by norm_num)
    (by norm_num) (by norm_num) (by norm_num) (by norm_num)]
  norm_num

/-- Band 3 `b2` (`common.py` line 181 with `m2 = 1.0`). -/
def fb2Three : ℚ := fl (ft3 - 1)

lemma fb2Three_val : fb2Three = 4728779608739021/1125899906842624 := by
  rw [fb2Three, ft3_val]
  rw [fl_eval_down ((5854679515581645/1125899906842624) - 1) (2) (4728779608739021) (by norm_num) (by norm_num)
    (by norm_num) (by norm_num) (by norm_num)]
  norm_num

/-- `m2[band] * 1.0` for band 3 (`common.py` line 188); exact. -/
def f1m1 : ℚ := fl (1 * 1)

lemma f1m1_val : f1m1 = 1 := by
  rw [f1m1]
  rw [fl_eval_down (1 * 1) (0) (4503599627370496) (by norm_num) (by norm_num)
    (by norm_num) (by norm_num) (by norm_num)]
  norm_num

/-- Band 3 offset increment `m2[band] * 1.0 + b2` (`common.py` line 188). -/
def fX3 : ℚ := fl (f1m1 + fb2Three)

lemma fX3_val : fX3 = 5854679515581645/1125899906842624 := by
  rw [fX3, f1m1_val, fb2Three_val]
  rw [fl_eval_down ((1) + (4728779608739021/1125899906842624)) (2) (5854679515581645) (by norm_num) (by norm_num)
    (by norm_num) (by norm_num) (by norm_num)]
  norm_num

/-- Running offset after band 3, stored as band 2's `b1` (`common.py` lines 185, 188). -/
def fb1Two : ℚ := fl (fa + fX3)

lemma fb1Two_val : fb1Two = 3039929748475085/562949953421312 := by
  rw [fb1Two, fa_val, fX3_val]
  rw [fl_eval_up ((3602879701896397/18014398509481984) + (5854679515581645/1125899906842624)) (2) (6079859496950169) (by norm_num) (by norm_num)
    (by norm_num) (by norm_num) (by norm_num) (by norm_num)]
  norm_num

/-- Band 2 spreading step, intermediate `b1 + 5.` (`common.py` line 181). -/
def ft2 : ℚ := fl (fb1Two + 5)

lemma ft2_val : ft2 = 5854679515581645/562949953421312 := by
  rw [ft2, fb1Two_val]
  rw [fl_eval_down ((3039929748475085/562949953421312) + 5) (3) (5854679515581645) (by norm_num) (by norm_num)
    (by norm_num) (by norm_num) (by norm_num)]
  norm_num

/-- Band 2 `b2` (`common.py` line 181 with `m2 = 6.0`). -/
def fb2Two : ℚ := fl (ft2 - 6)

lemma fb2Two_val : fb2Two = 2476979795053773/562949953421312 := by
  rw [fb2Two, ft2_val]
  rw [fl_eval_down ((5854679515581645/562949953421312) - 6) (2) (4953959590107546) (by norm_num) (by norm_num)
    (by norm_num) (by norm_num) (by norm_num)]
  norm_num

/-- `m2[band] * 1.0` for band 2 (`common.py` line 188); exact. -/
def f6m1 : ℚ := fl (6 * 1)

lemma f6m1_val : f6m1 = 6 := by
  rw [f6m1]
  rw [fl_eval_down (6 * 1) (2) (6755399441055744) (by norm_num) (by norm_num)
    (by norm_num) (by norm_num) (by norm_num)]
  norm_num

/-- Band 2 offset increment `m2[band] * 1.0 + b2` (`common.py` line 188). -/
def fX2 : ℚ := fl (f6m1 + fb2Two)

lemma fX2_val : fX2 = 5854679515581645/562949953421312 := by
  rw [fX2, f6m1_val, fb2Two_val]
  rw [fl_eval_down ((6) + (2476979795053773/562949953421312)) (3) (5854679515581645) (by norm_num) (by norm_num)
    (by norm_num) (by norm_num) (by norm_num)]
  norm_num

/-- Running offset after band 2, stored as band 1's `b1` (`common.py` lines 185, 188). -/
def fb1One : ℚ := fl (fb1Two + fX2)

lemma fb1One_val : fb1One = 4447304632028365/281474976710656 := by
  rw [fb1One, fb1Two_val, fX2_val]
  rw [fl_eval_down ((3039929748475085/562949953421312) + (5854679515581645/562949953421312)) (3) (8894609264056730) (by norm_num) (by norm_num)
    (by norm_num) (by norm_num) (by norm_num)]
  norm_num

/-- Band 1 spreading step, intermediate `b1 + 5.` (`common.py` line 181). -/
def ft1 : ℚ := fl (fb1One + 5)

lemma ft1_val : ft1 = 5854679515581645/281474976710656 := by
  rw [ft1, fb1One_val]
  rw [fl_eval_down ((4447304632028365/281474976710656) + 5) (4) (5854679515581645) (by norm_num) (by norm_num)
    (by norm_num) (by norm_num) (by norm_num)]
  norm_num

/-- Band 1 `b2` (`common.py` line 181 with `m2 = 20.0`). -/
def fb2One : ℚ := fl (ft1 - 20)

lemma fb2One_val : fb2One = 225179981368525/281474976710656 := by
  rw [fb2One, ft1_val]
  rw [fl_eval_down ((5854679515581645/281474976710656) - 20) (-1) (7205759403792800) (by norm_num) (by norm_num)
    (by norm_num) (by norm_num) (by norm_num)]
  norm_num

/-- `m2[band] * xb` for band 1 (`common.py` line 182). -/
def f20x8 : ℚ := fl (20 * fx8)

lemma f20x8_val : f20x8 = 16 := by
  rw [f20x8, fx8_val]
  rw [fl_eval_down (20 * (3602879701896397/4503599627370496)) (4) (4503599627370496) (by norm_num) (by norm_num)
    (by norm_num) (by norm_num) (by norm_num)]
  norm_num

/-- Numerator `m2[band] * xb + b2` of band 1's `m1` (`common.py` line 182). -/
def fnum1 : ℚ := fl (f20x8 + fb2One)

lemma fnum1_val : fnum1 = 4728779608739021/281474976710656 := by
  rw [fnum1, f20x8_val, fb2One_val]
  rw [fl_eval_down ((16) + (225179981368525/281474976710656)) (4) (4728779608739021) (by norm_num) (by norm_num)
    (by norm_num) (by norm_num) (by norm_num)]
  norm_num

/-- `xb ** 2`, the shared denominator of every `m1` (`common.py` line 182). -/
def flDen : ℚ := fl (fx8 * fx8)

lemma flDen_val : flDen = 1441151880758559/2251799813685248 := by
  rw [flDen, fx8_val]
  rw [fl_eval_up ((3602879701896397/4503599627370496) * (3602879701896397/4503599627370496)) (-1) (5764607523034235) (by norm_num) (by norm_num)
    (by norm_num) (by norm_num) (by norm_num) (by norm_num)]
  norm_num

/-- Band 1 `m1 = (m2[band] * xb + b2) / xb ** 2` (`common.py` line 182). -/
def fm1One : ℚ := fl (fnum1 / flDen)

lemma fm1One_val : fm1One = 7388718138654719/281474976710656 := by
  rw [fm1One, fnum1_val, flDen_val]
  rw [fl_eval_up ((4728779608739021/281474976710656) / (1441151880758559/2251799813685248)) (4) (7388718138654718) (by norm_num) (by norm_num)
    (by norm_num) (by norm_num) (by norm_num) (by norm_num)]
  norm_num

/-- `m2[band] * xb` for band 2 (`common.py` line 182); rounds on a tie, to even. -/
def f6x8 : ℚ := fl (6 * fx8)

lemma f6x8_val : f6x8 = 1351079888211149/281474976710656 := by
  rw [f6x8, fx8_val]
  rw [fl_eval_tie_odd (6 * (3602879701896397/4503599627370496)) (2) (5404319552844595) (by norm_num) (by norm_num)
    (by norm_num) (by norm_num) (by norm_num) (by decide)]
  norm_num

/-- Numerator of band 2's `m1` (`common.py` line 182). -/
def fnum2 : ℚ := fl (f6x8 + fb2Two)

lemma fnum2_val : fnum2 = 5179139571476071/562949953421312 := by
  rw [fnum2, f6x8_val, fb2Two_val]
  rw [fl_eval_down ((1351079888211149/281474976710656) + (2476979795053773/562949953421312)) (3) (5179139571476071) (by norm_num) (by norm_num)
    (by norm_num) (by norm_num) (by norm_num)]
  norm_num

/-- Band 2 `m1` (`common.py` line 182). -/
def fm1Two : ℚ := fl (fnum2 / flDen)

lemma fm1Two_val : fm1Two = 8092405580431359/562949953421312 := by
  rw [fm1Two, fnum2_val, flDen_val]
  rw [fl_eval_down ((5179139571476071/562949953421312) / (1441151880758559/2251799813685248)) (3) (8092405580431359) (by norm_num) (by norm_num)
    (by norm_num) (by norm_num) (by norm_num)]
  norm_num

/-- `m2[band] * xb` for band 3 (`common.py` line 182); exact. -/
def f1x8 : ℚ := fl (1 * fx8)

lemma f1x8_val : f1x8 = 3602879701896397/4503599627370496 := by
  rw [f1x8, fx8_val]
  rw [fl_eval_down (1 * (3602879701896397/4503599627370496)) (-1) (7205759403792794) (by norm_num) (by norm_num)
    (by norm_num) (by norm_num) (by norm_num)]
  norm_num

/-- Numerator of band 3's `m1` (`common.py` line 182). -/
def fnum3 : ℚ := fl (f1x8 + fb2Three)

lemma fnum3_val : fnum3 = 5 := by
  rw [fnum3, f1x8_val, fb2Three_val]
  rw [fl_eval_down ((3602879701896397/4503599627370496) + (4728779608739021/1125899906842624)) (2) (5629499534213120) (by norm_num) (by norm_num)
    (by norm_num) (by norm_num) (by norm_num)]
  norm_num

/-- Band 3 `m1` (`common.py` line 182). -/
def fm1Three : ℚ := fl (fnum3 / flDen)

lemma fm1Three_val : fm1Three = 4398046511103999/562949953421312 := by
  rw [fm1Three, fnum3_val, flDen_val]
  rw [fl_eval_down ((5) / (1441151880758559/2251799813685248)) (2) (8796093022207998) (by norm_num) (by norm_num)
    (by norm_num) (by norm_num) (by norm_num)]
  norm_num

/-- `c ** 2` for completion `c = 2^-40`; exact. -/
lemma fl_csq : fl ((1/1099511627776 : ℚ) * (1/1099511627776)) = 1/1208925819614629174706176 := by
  rw [fl_eval_down ((1/1099511627776 : ℚ) * (1/1099511627776)) (-80) (4503599627370496) (by norm_num) (by norm_num)
    (by norm_num) (by norm_num) (by norm_num)]
  norm_num

/-- `m1 * c^2` for band 1 at `c = 2^-40`; an exact power-of-two scaling. -/
lemma fl_uOne : fl ((7388718138654719/281474976710656 : ℚ) * (1/1208925819614629174706176)) = 7388718138654719/340282366920938463463374607431768211456 := by
  rw [fl_eval_down ((7388718138654719/281474976710656 : ℚ) * (1/1208925819614629174706176)) (-76) (7388718138654719) (by norm_num) (by norm_num)
    (by norm_num) (by norm_num) (by norm_num)]
  norm_num

/-- `m1 * c^2 + b1` for band 1 at `c = 2^-40`: the addend is far below half an ulp of `b1`, so rounding returns `b1` itself. -/
lemma fl_pOneTiny : fl ((7388718138654719/340282366920938463463374607431768211456 : ℚ) + 4447304632028365/281474976710656) = 4447304632028365/281474976710656 := by
  rw [fl_eval_down ((7388718138654719/340282366920938463463374607431768211456 : ℚ) + 4447304632028365/281474976710656) (3) (8894609264056730) (by norm_num) (by norm_num)
    (by norm_num) (by norm_num) (by norm_num)]
  norm_num

/-- `b2 + xb0` for band 2 (`xb0 = 0.0`); exact. -/
lemma fl_bTwoZero : fl ((2476979795053773/562949953421312 : ℚ) + 0) = 2476979795053773/562949953421312 := by
  rw [fl_eval_down ((2476979795053773/562949953421312 : ℚ) + 0) (2) (4953959590107546) (by norm_num) (by norm_num)
    (by norm_num) (by norm_num) (by norm_num)]
  norm_num

/-- Band 2 effective intercept `b2 + xb0 + b1` (`common.py` line 246). -/
lemma fl_bTwoEff : fl ((2476979795053773/562949953421312 : ℚ) + 3039929748475085/562949953421312) = 2758454771764429/281474976710656 := by
  rw [fl_eval_down ((2476979795053773/562949953421312 : ℚ) + 3039929748475085/562949953421312) (3) (5516909543528858) (by norm_num) (by norm_num)
    (by norm_num) (by norm_num) (by norm_num)]
  norm_num

/-- `m2 * 1.0` for band 2 in the `completed == 1` branch; exact. -/
lemma fl_sixOne : fl ((6 : ℚ) * 1) = 6 := by
  rw [fl_eval_down ((6 : ℚ) * 1) (2) (6755399441055744) (by norm_num) (by norm_num)
    (by norm_num) (by norm_num) (by norm_num)]
  norm_num

/-- `m2 * 1.0 + b2` for band 2 at completion 1: lands bit-for-bit on band 1's `b1`. -/
lemma fl_pTwoOneMid : fl ((6 : ℚ) + 2758454771764429/281474976710656) = 4447304632028365/281474976710656 := by
  rw [fl_eval_down ((6 : ℚ) + 2758454771764429/281474976710656) (3) (8894609264056730) (by norm_num) (by norm_num)
    (by norm_num) (by norm_num) (by norm_num)]
  norm_num

/-- `+ xc0` (`xc0 = 0.0`); exact. -/
lemma fl_pTwoOneZero : fl ((4447304632028365/281474976710656 : ℚ) + 0) = 4447304632028365/281474976710656 := by
  rw [fl_eval_down ((4447304632028365/281474976710656 : ℚ) + 0) (3) (8894609264056730) (by norm_num) (by norm_num)
    (by norm_num) (by norm_num) (by norm_num)]
  norm_num

/-- `m1 * c^2` for band 2 at `c = 2^-40`; exact scaling. -/
lemma fl_uTwo : fl ((8092405580431359/562949953421312 : ℚ) * (1/1208925819614629174706176)) = 8092405580431359/680564733841876926926749214863536422912 := by
  rw [fl_eval_down ((8092405580431359/562949953421312 : ℚ) * (1/1208925819614629174706176)) (-77) (8092405580431359) (by norm_num) (by norm_num)
    (by norm_num) (by norm_num) (by norm_num)]
  norm_num

/-- `m1 * c^2 + b1` for band 2 at `c = 2^-40`: rounding returns `b1` itself. -/
lemma fl_pTwoTiny : fl ((8092405580431359/680564733841876926926749214863536422912 : ℚ) + 3039929748475085/562949953421312) = 3039929748475085/562949953421312 := by
  rw [fl_eval_down ((8092405580431359/680564733841876926926749214863536422912 : ℚ) + 3039929748475085/562949953421312) (2) (6079859496950170) (by norm_num) (by norm_num)
    (by norm_num) (by norm_num) (by norm_num)]
  norm_num

/-- `b2 + xb0` for band 3 (`xb0 = 0.0`); exact. -/
lemma fl_bThreeZero : fl ((4728779608739021/1125899906842624 : ℚ) + 0) = 4728779608739021/1125899906842624 := by
  rw [fl_eval_down ((4728779608739021/1125899906842624 : ℚ) + 0) (2) (4728779608739021) (by norm_num) (by norm_num)
    (by norm_num) (by norm_num) (by norm_num)]
  norm_num

/-- Band 3 effective intercept `b2 + xb0 + b1` (`common.py` line 246). -/
lemma fl_bThreeEff : fl ((4728779608739021/1125899906842624 : ℚ) + 3602879701896397/18014398509481984) = 2476979795053773/562949953421312 := by
  rw [fl_eval_up ((4728779608739021/1125899906842624 : ℚ) + 3602879701896397/18014398509481984) (2) (4953959590107545) (by norm_num) (by norm_num)
    (by norm_num) (by norm_num) (by norm_num) (by norm_num)]
  norm_num

/-- `m2 * 1.0` for band 3 in the `completed == 1` branch; exact. -/
lemma fl_oneOne : fl ((1 : ℚ) * 1) = 1 := by
  rw [fl_eval_down ((1 : ℚ) * 1) (0) (4503599627370496) (by norm_num) (by norm_num)
    (by norm_num) (by norm_num) (by norm_num)]
  norm_num

/-- `m2 * 1.0 + b2` for band 3 at completion 1: lands bit-for-bit on band 2's `b1`. -/
lemma fl_pThreeOneMid : fl ((1 : ℚ) + 2476979795053773/562949953421312) = 3039929748475085/562949953421312 := by
  rw [fl_eval_down ((1 : ℚ) + 2476979795053773/562949953421312) (2) (6079859496950170) (by norm_num) (by norm_num)
    (by norm_num) (by norm_num) (by norm_num)]
  norm_num

/-- `+ xc0` (`xc0 = 0.0`); exact. -/
lemma fl_pThreeOneZero : fl ((3039929748475085/562949953421312 : ℚ) + 0) = 3039929748475085/562949953421312 := by
  rw [fl_eval_down ((3039929748475085/562949953421312 : ℚ) + 0) (2) (6079859496950170) (by norm_num) (by norm_num)
    (by norm_num) (by norm_num) (by norm_num)]
  norm_num


/-- The per-band coefficient rows as `Observations.__init__` leaves them under
IEEE-double arithmetic: band 3 keeps the offset `0.2`, bands 2 and 1 the
accumulated offsets; `m2`, `xb0`, `xc0` are exactly representable. -/
def flParams (band : String) : BandParams :=
  if band = "3" then
    { m1 := fm1Three, b1 := fa, m2 := 1, b2 := fb2Three, xb := fx8, xb0 := 0, xc0 := 0 }
  else if band = "2" then
    { m1 := fm1Two, b1 := fb1Two, m2 := 6, b2 := fb2Two, xb := fx8, xb0 := 0, xc0 := 0 }
  else if band = "1" then
    { m1 := fm1One, b1 := fb1One, m2 := 20, b2 := fb2One, xb := fx8, xb0 := 0, xc0 := 0 }
  else { m1 := 0, b1 := 0, m2 := 0, b2 := 0, xb := fx8, xb0 := 0, xc0 := 0 }

/-- `Observations.calculate_priority` under IEEE-double arithmetic: every
arithmetic operation of the source is followed by the correct rounding `fl`
(rounding the exact products and sums with the constants `1.0` and `0.0` is
harmless but kept for fidelity). -/
def flMetric (p : BandParams) (c : ℚ) : ℚ :=
  let b2 := fl (fl (p.b2 + p.xb0) + p.b1)
  if c = 0 then 0
  else if c < p.xb then fl (fl (p.m1 * fl (c * c)) + p.b1)
  else if c < 1 then fl (fl (p.m2 * c) + b2)
  else fl (fl (fl (p.m2 * 1) + b2) + p.xc0)

/-- Priority of band `band` at completion `c` under the program's
floating-point semantics. -/
def flPriorityOf (band : String) (c : ℚ) : ℚ := flMetric (flParams band) c

lemma flParams_one :
    flParams "1" = { m1 := fm1One, b1 := fb1One, m2 := 20, b2 := fb2One,
                     xb := fx8, xb0 := 0, xc0 := 0 } := by
  rw [flParams, if_neg (by decide), if_neg (by decide), if_pos rfl]

lemma flParams_two :
    flParams "2" = { m1 := fm1Two, b1 := fb1Two, m2 := 6, b2 := fb2Two,
                     xb := fx8, xb0 := 0, xc0 := 0 } := by
  rw [flParams, if_neg (by decide), if_pos rfl]

lemma flParams_three :
    flParams "3" = { m1 := fm1Three, b1 := fa, m2 := 1, b2 := fb2Three,
                     xb := fx8, xb0 := 0, xc0 := 0 } := by
  rw [flParams, if_pos rfl]

lemma flPriorityOne_tiny :
    flPriorityOf "1" (1/1099511627776) = 4447304632028365/281474976710656 := by
  rw [flPriorityOf, flParams_one]
  simp only [flMetric]
  rw [fx8_val, fm1One_val, fb1One_val]
  rw [if_neg (by norm_num), if_pos (by norm_num)]
  rw [fl_csq, fl_uOne, fl_pOneTiny]

lemma flPriorityTwo_one :
    flPriorityOf "2" 1 = 4447304632028365/281474976710656 := by
  rw [flPriorityOf, flParams_two]
  simp only [flMetric]
  rw [fx8_val, fb2Two_val, fb1Two_val]
  rw [if_neg (by norm_num), if_neg (by norm_num), if_neg (by norm_num)]
  rw [fl_bTwoZero, fl_bTwoEff, fl_sixOne, fl_pTwoOneMid, fl_pTwoOneZero]

lemma flPriorityTwo_tiny :
    flPriorityOf "2" (1/1099511627776) = 3039929748475085/562949953421312 := by
  rw [flPriorityOf, flParams_two]
  simp only [flMetric]
  rw [fx8_val, fm1Two_val, fb1Two_val]
  rw [if_neg (by norm_num), if_pos (by norm_num)]
  rw [fl_csq, fl_uTwo, fl_pTwoTiny]

lemma flPriorityThree_one :
    flPriorityOf "3" 1 = 3039929748475085/562949953421312 := by
  rw [flPriorityOf, flParams_three]
  simp only [flMetric]
  rw [fx8_val, fb2Three_val, fa_val]
  rw [if_neg (by norm_num), if_neg (by norm_num), if_neg (by norm_num)]
  rw [fl_bThreeZero, fl_bThreeEff, fl_oneOne, fl_pThreeOneMid, fl_pThreeOneZero]

/-- C4 counterexample: under the source's IEEE-double arithmetic the strict
ranking fails.  Band 1's priority at completion `2⁻⁴⁰` — a reachable
completion, e.g. `obs_time = 1` with `allocated_time = 2⁴⁰` — is bit-for-bit
EQUAL to Band 2's priority at completion 1 (both are the double `15.8`), and
Band 2's priority at `2⁻⁴⁰` equals Band 3's at completion 1 (the double
`5.4`); both completions lie in `(0, 1]`, where the claim demands strict
inequality. -/
theorem band_ranking_ties_under_float :
    flPriorityOf "1" (1/1099511627776) = flPriorityOf "2" 1 ∧
    flPriorityOf "2" (1/1099511627776) = flPriorityOf "3" 1 ∧
    ¬ (flPriorityOf "2" 1 < flPriorityOf "1" (1/1099511627776)) ∧
    ¬ (flPriorityOf "3" 1 < flPriorityOf "2" (1/1099511627776)) ∧
    0 < (1/1099511627776 : ℚ) ∧ (1/1099511627776 : ℚ) ≤ 1 := by
  refine ⟨?_, ?_, ?_, ?_, by norm_num, by norm_num⟩
  · rw [flPriorityOne_tiny, flPriorityTwo_one]
  · rw [flPriorityTwo_tiny, flPriorityThree_one]
  · rw [flPriorityOne_tiny, flPriorityTwo_one]
    exact lt_irrefl _
  · rw [flPriorityTwo_tiny, flPriorityThree_one]
    exact lt_irrefl _


/-- C4 amended: in exact real arithmetic the four band curves are strictly
ranked — Band 1 above Band 2 above Band 3 above Band 4 — for every pair of
completions in `(0, 1]` (and the ranking is tight: the infimum of Band 1
equals Band 2's value at completion 1).  Under the program's IEEE-double
arithmetic the ranking at the meeting corner is only non-strict: Band 1's
priority at completion `2⁻⁴⁰` is exactly Band 2's priority at completion 1,
and Band 2's there is exactly Band 3's at completion 1 — the curves touch but
never cross. -/
theorem band_curves_ranked_amended (c1 c2 : ℚ)
    (h10 : 0 < c1) (h11 : c1 ≤ 1) (h20 : 0 < c2) (h21 : c2 ≤ 1) :
    (priorityOf "2" c2 < priorityOf "1" c1 ∧
     priorityOf "3" c2 < priorityOf "2" c1 ∧
     priorityOf "4" c2 < priorityOf "3" c1) ∧
    flPriorityOf "2" 1 ≤ flPriorityOf "1" (1/1099511627776) ∧
    flPriorityOf "3" 1 ≤ flPriorityOf "2" (1/1099511627776) := by
  refine ⟨⟨lt_of_le_of_lt (band_two_upper c2 h20 h21) (band_one_lower c1 h10 h11),
    lt_of_le_of_lt (band_three_upper c2 h20 h21) (band_two_lower c1 h10 h11),
    ?_⟩, ?_, ?_⟩
  · rw [priorityOf_four_eq_zero]
    exact lt_trans (by norm_num) (band_three_lower c1 h10 h11)
  · exact le_of_eq (by rw [flPriorityTwo_one, flPriorityOne_tiny])
  · exact le_of_eq (by rw [flPriorityThree_one, flPriorityTwo_tiny])

/-- Witness for `band_curves_ranked_amended` at `c1 = 1/2`, `c2 = 1`. -/
theorem band_curves_ranked_amended_witness :
    (0 < (1/2 : ℚ) ∧ (1/2 : ℚ) ≤ 1 ∧ 0 < (1 : ℚ) ∧ (1 : ℚ) ≤ 1) ∧
    ((priorityOf "2" 1 < priorityOf "1" (1/2) ∧
      priorityOf "3" 1 < priorityOf "2" (1/2) ∧
      priorityOf "4" 1 < priorityOf "3" (1/2)) ∧
     flPriorityOf "2" 1 ≤ flPriorityOf "1" (1/1099511627776) ∧
     flPriorityOf "3" 1 ≤ flPriorityOf "2" (1/1099511627776)) :=
  ⟨by norm_num,
   band_curves_ranked_amended (1/2) 1 (by norm_num) (by norm_num)
     (by norm_num) (by norm_num)⟩

/-- C9: a Band-4 observation has priority exactly 0 at every completion
fraction: its coefficient row is all zero and the spreading loop (which visits
only bands 3, 2, 1) never touches it, so every branch of the piecewise metric
evaluates to 0. -/
theorem band_four_priority_zero :
    params "4" = { m1 := 0, b1 := 0, m2 := 0, b2 := 0, xb := 4/5,
                   xb0 := 0, xc0 := 0 } ∧
    ∀ c : ℚ, priorityOf "4" c = 0 :=
  ⟨params_four, priorityOf_four_eq_zero⟩

/-- C5 counterexample: the Band-3 curve does NOT tend to 0 as completion tends
to 0 from above — on the whole quadratic segment it stays at or above
`b1 = 0.2`, so the curve has a jump at 0 and the claimed continuity at 0
fails. -/
theorem band_three_not_continuous_at_zero :
    ¬ tendstoZeroFromRight (priorityOf "3") := by
  intro h
  obtain ⟨δ, hδ, hsmall⟩ := h (1/5) (by norm_num)
  have hc0 : 0 < min (δ/2) (1/2 : ℚ) := lt_min (by linarith) (by norm_num)
  have hcδ : min (δ/2) (1/2 : ℚ) < δ :=
    lt_of_le_of_lt (min_le_left _ _) (by linarith)
  have hbound := hsmall _ hc0 hcδ
  have hcxb : min (δ/2) (1/2 : ℚ) < (4/5 : ℚ) :=
    lt_of_le_of_lt (min_le_right _ _) (by norm_num)
  rw [priorityOf, params_three,
    metricCurve_quad _ _ (ne_of_gt hc0) (by exact hcxb)] at hbound
  rw [abs_lt] at hbound
  nlinarith [mul_pos hc0 hc0, hbound.2]

/-- C5 amended: every band's quadratic and linear pieces agree at the
breakpoint `xb = 0.8` (the curve is continuous there); continuity at 0 holds
only for Band 4, whose curve is identically 0 near 0 — for bands 1, 2 and 3
the value at 0 is 0 but the curve stays at or above the strictly positive
intercept `b1` for every completion in `(0, 1]`, a jump discontinuity. -/
theorem curve_continuity_amended :
    (∀ b ∈ (["1", "2", "3", "4"] : List String),
      quadPiece (params b) (params b).xb = linPiece (params b) (params b).xb) ∧
    tendstoZeroFromRight (priorityOf "4") ∧
    (∀ b ∈ (["1", "2", "3"] : List String),
      0 < (params b).b1 ∧
      ∀ c : ℚ, 0 < c → c ≤ 1 → (params b).b1 ≤ priorityOf b c) := by
  refine ⟨?_, ?_, ?_⟩
  · intro b hb
    fin_cases hb <;>
      simp only [quadPiece, linPiece, params_one, params_two, params_three,
        params_four] <;> norm_num
  · intro ε hε
    exact ⟨1, by norm_num, fun c _ _ => by
      rw [priorityOf_four_eq_zero, abs_zero]; exact hε⟩
  · intro b hb
    fin_cases hb
    · exact ⟨by rw [params_one]; norm_num, fun c h0 h1 => by
        rw [params_one]; exact le_of_lt (band_one_lower c h0 h1)⟩
    · exact ⟨by rw [params_two]; norm_num, fun c h0 h1 => by
        rw [params_two]; exact le_of_lt (band_two_lower c h0 h1)⟩
    · exact ⟨by rw [params_three]; norm_num, fun c h0 h1 => by
        rw [params_three]; exact le_of_lt (band_three_lower c h0 h1)⟩

/-- Witness for `curve_continuity_amended`: Band 3 at completion `1/2` sits at
or above its intercept `b1 = 1/5`, and its two pieces agree at the
breakpoint. -/
theorem curve_continuity_amended_witness :
    quadPiece (params "3") (params "3").xb = linPiece (params "3") (params "3").xb ∧
    (0 < (1/2 : ℚ) ∧ (1/2 : ℚ) ≤ 1) ∧
    (params "3").b1 ≤ priorityOf "3" (1/2) :=
  ⟨curve_continuity_amended.1 "3" (by simp),
   ⟨by norm_num, by norm_num⟩,
   (curve_continuity_amended.2.2 "3" (by simp)).2 (1/2) (by norm_num) (by norm_num)⟩

lemma metricCurve_mono (p : BandParams) (hm1 : 0 ≤ p.m1) (hb1 : 0 ≤ p.b1)
    (hm2 : 0 ≤ p.m2) (hxc0 : 0 ≤ p.xc0) (hxb0 : 0 < p.xb) (hxb1 : p.xb ≤ 1)
    (hcont : p.m1 * p.xb ^ 2 + p.b1 = p.m2 * p.xb + (p.b2 + p.xb0 + p.b1))
    (c1 c2 : ℚ) (h0 : 0 ≤ c1) (hle : c1 ≤ c2) (h1 : c2 ≤ 1) :
    metricCurve p c1 ≤ metricCurve p c2 := by
  by_cases e1 : c1 = 0
  · -- value at 0 is 0; every branch of the curve is nonnegative
    rw [metricCurve]
    simp only [e1, if_true]
    by_cases e2 : c2 = 0
    · simp [metricCurve, e2]
    · by_cases q2 : c2 < p.xb
      · rw [metricCurve_quad _ _ e2 q2]
        nlinarith [sq_nonneg c2]
      · push_neg at q2
        by_cases l2 : c2 < 1
        · rw [metricCurve_lin _ _ e2 (not_lt.2 q2) l2]
          nlinarith [sq_nonneg p.xb, mul_nonneg hm2 (sub_nonneg.2 q2),
            mul_nonneg hm1 (sq_nonneg p.xb)]
        · rw [metricCurve_top _ _ e2 (not_lt.2 q2) l2]
          nlinarith [mul_nonneg hm2 (by linarith : (0:ℚ) ≤ 1 - p.xb),
            mul_nonneg hm1 (sq_nonneg p.xb)]
  · have hpos1 : 0 < c1 := lt_of_le_of_ne h0 (Ne.symm e1)
    have e2 : c2 ≠ 0 := by intro h; rw [h] at hle; linarith
    by_cases q1 : c1 < p.xb
    · rw [metricCurve_quad _ _ e1 q1]
      by_cases q2 : c2 < p.xb
      · rw [metricCurve_quad _ _ e2 q2]
        nlinarith [mul_nonneg hm1 (mul_nonneg (sub_nonneg.2 hle)
          (by linarith : (0:ℚ) ≤ c2 + c1))]
      · push_neg at q2
        by_cases l2 : c2 < 1
        · rw [metricCurve_lin _ _ e2 (not_lt.2 q2) l2]
          nlinarith [mul_nonneg hm2 (sub_nonneg.2 q2),
            mul_nonneg hm1 (mul_nonneg (by linarith : (0:ℚ) ≤ p.xb - c1)
              (by linarith : (0:ℚ) ≤ p.xb + c1))]
        · rw [metricCurve_top _ _ e2 (not_lt.2 q2) l2]
          nlinarith [mul_nonneg hm2 (by linarith : (0:ℚ) ≤ 1 - p.xb),
            mul_nonneg hm1 (mul_nonneg (by linarith : (0:ℚ) ≤ p.xb - c1)
              (by linarith : (0:ℚ) ≤ p.xb + c1))]
    · push_neg at q1
      have q2 : ¬ c2 < p.xb := not_lt.2 (le_trans q1 hle)
      by_cases l1 : c1 < 1
      · rw [metricCurve_lin _ _ e1 (not_lt.2 q1) l1]
        by_cases l2 : c2 < 1
        · rw [metricCurve_lin _ _ e2 q2 l2]
          nlinarith [mul_nonneg hm2 (sub_nonneg.2 hle)]
        · rw [metricCurve_top _ _ e2 q2 l2]
          nlinarith [mul_nonneg hm2 (by linarith : (0:ℚ) ≤ 1 - c1)]
      · have l2 : ¬ c2 < 1 := by push_neg at l1 ⊢; linarith
        rw [metricCurve_top _ _ e1 (not_lt.2 q1) l1,
          metricCurve_top _ _ e2 q2 l2]

/-- C6: for every band, the completion-to-priority curve computed by
`calculate_priority` is monotonically non-decreasing on all of `[0, 1]`,
including across the jump at 0, the breakpoint `xb`, and the value at
completion 1. -/
theorem priority_monotone_in_completion (b : String)
    (hb : b ∈ (["1", "2", "3", "4"] : List String)) (c1 c2 : ℚ)
    (h0 : 0 ≤ c1) (hle : c1 ≤ c2) (h1 : c2 ≤ 1) :
    priorityOf b c1 ≤ priorityOf b c2 := by
  fin_cases hb
  · rw [priorityOf, priorityOf, params_one]
    exact metricCurve_mono _ (by norm_num) (by norm_num) (by norm_num)
      (by norm_num) (by norm_num) (by norm_num) (by norm_num) c1 c2 h0 hle h1
  · rw [priorityOf, priorityOf, params_two]
    exact metricCurve_mono _ (by norm_num) (by norm_num) (by norm_num)
      (by norm_num) (by norm_num) (by norm_num) (by norm_num) c1 c2 h0 hle h1
  · rw [priorityOf, priorityOf, params_three]
    exact metricCurve_mono _ (by norm_num) (by norm_num) (by norm_num)
      (by norm_num) (by norm_num) (by norm_num) (by norm_num) c1 c2 h0 hle h1
  · rw [priorityOf, priorityOf, params_four]
    exact metricCurve_mono _ (by norm_num) (by norm_num) (by norm_num)
      (by norm_num) (by norm_num) (by norm_num) (by norm_num) c1 c2 h0 hle h1

/-- Witness for `priority_monotone_in_completion`: Band 2 from completion 0 to
completion 9/10, a pair that crosses both the jump at 0 and the
breakpoint. -/
theorem priority_monotone_in_completion_witness :
    ("2" ∈ (["1", "2", "3", "4"] : List String) ∧ 0 ≤ (0 : ℚ) ∧
      (0 : ℚ) ≤ 9/10 ∧ (9/10 : ℚ) ≤ 1) ∧
    priorityOf "2" 0 ≤ priorityOf "2" (9/10) :=
  ⟨⟨by simp, by norm_num, by norm_num, by norm_num⟩,
   priority_monotone_in_completion "2" (by simp) 0 (9/10)
     (by norm_num) (by norm_num) (by norm_num)⟩

/-- The resources (telescopes) to be scheduled: `Resource` in `common.py`,
an `IntEnum` with `GN = 0`, `GS = 1`. -/
inductive Resource where
  | GN : Resource
  | GS : Resource
deriving DecidableEq, Repr

/-- The integer value of the `IntEnum` member. -/
def Resource.toNat : Resource → ℕ
  | .GN => 0
  | .GS => 1

/-- A single time slot: a resource and a start time (`TimeSlot`,
`common.py` lines 34-49). -/
structure TimeSlot where
  resource : Resource
  startTime : ℕ
deriving DecidableEq, Repr

/-- The `TimeSlots` collection (`common.py` lines 52-91). -/
structure TimeSlots where
  timeslotLength : ℕ
  numTimeslotsPerSite : ℕ
  timeslots : List TimeSlot
deriving DecidableEq, Repr

/-- `TimeSlots.__init__`: for each resource in order (GN, GS) and each
`idx < num_timeslots_per_site`, append a slot starting at
`idx * timeslot_length`. -/
def mkTimeSlots (timeslotLength numTimeslotsPerSite : ℕ) : TimeSlots :=
  { timeslotLength := timeslotLength
    numTimeslotsPerSite := numTimeslotsPerSite
    timeslots := [Resource.GN, Resource.GS].flatMap (fun r =>
      (List.range numTimeslotsPerSite).map (fun idx =>
        { resource := r, startTime := idx * timeslotLength })) }

/-- `TimeSlots.get_time_slot`: indexes the flat slot list at
`resource * num_timeslots_per_site + index`; `none` models Python's
`IndexError`.  (Python's negative-index wrap-around is out of scope: indices
here are natural numbers.) -/
def TimeSlots.getTimeSlot (ts : TimeSlots) (r : Resource) (index : ℕ) :
    Option TimeSlot :=
  ts.timeslots.get? (r.toNat * ts.numTimeslotsPerSite + index)

/-- C7: `get_time_slot` does NOT fail for every out-of-range index.  On the
default grid (6 slots per site), `get_time_slot(GN, 6)` with `6 ∉ [0, 6)`
silently returns the first slot of the OTHER site (GS, start time 0) instead
of raising; only an index that pushes the flat position past the whole list
(e.g. `get_time_slot(GS, 6)`) raises.  In-range indices do return the
resource's own slot at `index * timeslot_length`. -/
theorem get_time_slot_out_of_range :
    (mkTimeSlots 300 6).getTimeSlot Resource.GN 6 =
      some { resource := Resource.GS, startTime := 0 } ∧
    (mkTimeSlots 300 6).getTimeSlot Resource.GS 6 = none ∧
    (mkTimeSlots 300 6).getTimeSlot Resource.GN 3 =
      some { resource := Resource.GN, startTime := 900 } ∧
    (mkTimeSlots 300 6).getTimeSlot Resource.GS 3 =
      some { resource := Resource.GS, startTime := 900 } := by
  refine ⟨rfl, rfl, rfl, rfl⟩

/-- `common.py`'s `TS` dataclass: a permitted start-slot index together with a
metric (quality) score for that start. -/
structure TS where
  timeslotIdx : ℕ
  metricScore : ℚ
deriving DecidableEq, Repr

/-- The per-observation columns of `common.py`'s `Observations`. -/
structure Observations where
  numObs : ℕ
  band : List String
  startSlots : List (List TS)
  usedTime : List ℚ
  allocatedTime : List ℚ
  obsTime : List ℚ
deriving DecidableEq, Repr

/-- `Observations.__init__`: all columns empty. -/
def emptyObservations : Observations :=
  { numObs := 0, band := [], startSlots := [], usedTime := [],
    allocatedTime := [], obsTime := [] }

/-- `Observations.add_obs` (`common.py` lines 190-205).  `none` models the
failing `assert allocated_time != 0`: the assert only sees the passed
argument, so it fires exactly when the caller explicitly passes 0 (Python's
`None != 0` is true).  An omitted `allocated_time` is the `none` argument and
defaults the stored allocation to `obs_time`. -/
def addObs (o : Observations) (band : String) (startSlotIdx : List TS)
    (obsTime : ℚ) (allocatedTime : Option ℚ) : Option Observations :=
  if allocatedTime = some 0 then none
  else some
    { numObs := o.numObs + 1
      band := o.band ++ [band]
      startSlots := o.startSlots ++ [startSlotIdx]
      usedTime := o.usedTime ++ [0]
      allocatedTime := o.allocatedTime ++ [allocatedTime.getD obsTime]
      obsTime := o.obsTime ++ [obsTime] }

/-- `Observations._calculate_completion` (`common.py` lines 210-216):
`(used_time + obs_time) / allocated_time`, clamped above at 1 by
`np.where(time > 1., 1., time)`. -/
def calcCompletion (o : Observations) : List ℚ :=
  (List.zip (List.zip o.usedTime o.obsTime) o.allocatedTime).map (fun p =>
    if (p.1.1 + p.1.2) / p.2 > 1 then 1 else (p.1.1 + p.1.2) / p.2)

/-- C8: `add_obs` fails exactly when it is passed `allocated_time = 0`; when
`allocated_time` is omitted the stored allocation defaults to `obs_time`; in
the non-failing case exactly one observation is appended, with `used_time`
initialised to 0 and `num_obs` incremented by 1. -/
theorem add_obs_spec (o : Observations) (band : String) (ss : List TS)
    (t : ℚ) (alloc : Option ℚ) :
    (alloc = some 0 → addObs o band ss t alloc = none) ∧
    (alloc ≠ some 0 → ∃ o2, addObs o band ss t alloc = some o2 ∧
      o2.numObs = o.numObs + 1 ∧
      o2.band = o.band ++ [band] ∧
      o2.startSlots = o.startSlots ++ [ss] ∧
      o2.usedTime = o.usedTime ++ [0] ∧
      o2.allocatedTime = o.allocatedTime ++ [alloc.getD t] ∧
      o2.obsTime = o.obsTime ++ [t]) := by
  constructor
  · intro h
    simp [addObs, h]
  · intro h
    refine ⟨{ numObs := o.numObs + 1, band := o.band ++ [band],
              startSlots := o.startSlots ++ [ss], usedTime := o.usedTime ++ [0],
              allocatedTime := o.allocatedTime ++ [alloc.getD t],
              obsTime := o.obsTime ++ [t] }, ?_, rfl, rfl, rfl, rfl, rfl, rfl⟩
    simp [addObs, h]

/-- Witness for `add_obs_spec`: an explicit zero allocation fails, and an
omitted allocation succeeds and stores `obs_time` as the allocation. -/
theorem add_obs_spec_witness :
    (addObs emptyObservations "2" [] 300 (some 0) = none) ∧
    (∃ o2, addObs emptyObservations "2" [] 300 none = some o2 ∧
      o2.numObs = emptyObservations.numObs + 1 ∧
      o2.band = emptyObservations.band ++ ["2"] ∧
      o2.startSlots = emptyObservations.startSlots ++ [[]] ∧
      o2.usedTime = emptyObservations.usedTime ++ [0] ∧
      o2.allocatedTime = emptyObservations.allocatedTime ++
        [(none : Option ℚ).getD 300] ∧
      o2.obsTime = emptyObservations.obsTime ++ [300]) :=
  ⟨(add_obs_spec emptyObservations "2" [] 300 (some 0)).1 rfl,
   (add_obs_spec emptyObservations "2" [] 300 none).2 (by simp)⟩

/-- C10: calling `add_obs` with `allocated_time` omitted and `obs_time = 0`
succeeds — the assertion only checks the explicitly passed argument — and
stores an observation whose allocation is 0, so the divisor
`allocated_time` used by `_calculate_completion` for that observation is 0
(numpy evaluates `0/0` there).  The second conjunct runs the completion
calculation on the first such observation: the entry is computed as
`(0 + 0) / 0`. -/
theorem add_obs_zero_allocation_hazard :
    (∀ (o : Observations) (band : String) (ss : List TS),
      ∃ o2, addObs o band ss 0 none = some o2 ∧
        o2.allocatedTime = o.allocatedTime ++ [0] ∧
        o2.allocatedTime.getLast? = some 0) ∧
    (∃ o2, addObs emptyObservations "3" [] 0 none = some o2 ∧
      calcCompletion o2 = [(0 + 0) / 0]) := by
  constructor
  · intro o band ss
    refine ⟨{ numObs := o.numObs + 1, band := o.band ++ [band],
              startSlots := o.startSlots ++ [ss], usedTime := o.usedTime ++ [0],
              allocatedTime := o.allocatedTime ++ [0],
              obsTime := o.obsTime ++ [0] }, by simp [addObs], rfl, by simp⟩
  · refine ⟨{ numObs := 1, band := ["3"], startSlots := [[]], usedTime := [0],
              allocatedTime := [0], obsTime := [0] },
      by simp [addObs, emptyObservations], ?_⟩
    simp [calcCompletion]

/-- An observation row of `input_parameters.Observations` as consumed by
`lco_solver.schedule`: band, permitted start-slot indices, observation time
(seconds). -/
structure ObsRow where
  band : String
  startSlotIdx : List ℕ
  obsTime : ℚ
deriving DecidableEq, Repr, Inhabited

/-- Occupancy length used by the no-double-booking constraint in
`lco_solver.schedule` (line 74): `ceil(int(obs_time / timeslot_length))`.
The truncation to `int` happens BEFORE `ceil`, so the `ceil` is applied to an
integer and this is the floor of the ratio, not its ceiling. -/
def lcoConstraintSlots (obsTime L : ℚ) : ℤ := ⌈((pyInt (obsTime / L) : ℤ) : ℚ)⌉

/-- Slot count used by the decoding step (`lco_solver.py` line 109) and by
`solver.py` (lines 56 and 96): `int(ceil(obs_time / timeslot_length))`. -/
def slotsNeeded (obsTime L : ℚ) : ℤ := pyInt ((⌈obsTime / L⌉ : ℤ) : ℚ)

/-- `needed_slots` as the spec defines it:
`ceil(required_duration / slot_length)`. -/
def specNeededSlots (obsTime L : ℚ) : ℤ := ⌈obsTime / L⌉

/-- Membership condition of slot `t`'s no-double-booking constraint in
`lco_solver.schedule` (line 73): `y[i][s]` is summed iff
`s ≤ t < s + ceil(int(obs_time / L))`. -/
def lcoCovers (obsTime L : ℚ) (s t : ℕ) : Prop :=
  s ≤ t ∧ (t : ℤ) < s + lcoConstraintSlots obsTime L

instance (obsTime L : ℚ) (s t : ℕ) : Decidable (lcoCovers obsTime L s t) := by
  unfold lcoCovers
  exact instDecidableAnd

/-- Membership condition of slot `t`'s constraint in `solver.py` (line 66):
`s ≤ t < s + slots_needed` with `slots_needed = int(ceil(obs_time / L))`. -/
def solverCovers (obsTime L : ℚ) (s t : ℕ) : Prop :=
  s ≤ t ∧ (t : ℤ) < s + slotsNeeded obsTime L

/-- The coverage condition the spec claims: `s ≤ t < s + needed_slots` with
`needed_slots = ceil(required_duration / slot_length)`. -/
def specCovers (obsTime L : ℚ) (s t : ℕ) : Prop :=
  s ≤ t ∧ (t : ℤ) < s + specNeededSlots obsTime L

lemma pyInt_intCast (n : ℤ) : pyInt ((n : ℚ)) = n := by
  unfold pyInt
  split
  · exact Int.floor_intCast n
  · exact Int.ceil_intCast n

lemma slotsNeeded_eq_spec (obsTime L : ℚ) :
    slotsNeeded obsTime L = specNeededSlots obsTime L := by
  rw [slotsNeeded, specNeededSlots, pyInt_intCast]

lemma ratio_400_300_floor : (⌊(400 : ℚ) / 300⌋ : ℤ) = 1 := by
  rw [Int.floor_eq_iff]
  norm_num

lemma ratio_400_300_ceil : (⌈(400 : ℚ) / 300⌉ : ℤ) = 2 := by
  rw [Int.ceil_eq_iff]
  norm_num

lemma lcoConstraintSlots_400_300 : lcoConstraintSlots 400 300 = 1 := by
  rw [lcoConstraintSlots, pyInt, if_pos (by norm_num), ratio_400_300_floor]
  exact_mod_cast Int.ceil_intCast 1

lemma slotsNeeded_400_300 : slotsNeeded 400 300 = 2 := by
  rw [slotsNeeded, ratio_400_300_ceil, pyInt_intCast]

/-- C2: for a 400-second observation on a 300-second grid the spec's occupancy
window starting at slot 0 covers slot 1 (`needed_slots = ceil(400/300) = 2`),
but `lco_solver.schedule` omits `y[i][0]` from slot 1's constraint because it
computes `ceil(int(400/300)) = 1` — the `int` truncation is applied before
`ceil`.  The decoding step and `solver.py` both use `int(ceil(400/300)) = 2`,
which agrees with the spec's coverage condition for every duration, grid and
slot pair. -/
theorem no_double_booking_coverage :
    specNeededSlots 400 300 = 2 ∧
    lcoConstraintSlots 400 300 = 1 ∧
    slotsNeeded 400 300 = 2 ∧
    specCovers 400 300 0 1 ∧
    ¬ lcoCovers 400 300 0 1 ∧
    (∀ (obsTime L : ℚ) (s t : ℕ), solverCovers obsTime L s t ↔ specCovers obsTime L s t) := by
  refine ⟨?_, lcoConstraintSlots_400_300, slotsNeeded_400_300, ?_, ?_, ?_⟩
  · rw [specNeededSlots, ratio_400_300_ceil]
  · exact ⟨Nat.zero_le 1, by rw [specNeededSlots, ratio_400_300_ceil]; norm_num⟩
  · intro h
    have := h.2
    rw [lcoConstraintSlots_400_300] at this
    norm_num at this
  · intro obsTime L s t
    rw [solverCovers, specCovers, slotsNeeded_eq_spec]

/-- The 0/1 value of a boolean decision variable. -/
def boolToNat (b : Bool) : ℕ := if b then 1 else 0

/-- Constraint family A (single start), `lco_solver.schedule` lines 53-55: for
each observation, the sum of its start variables is at most 1. -/
def singleStartHolds (obss : List ObsRow) (y : ℕ → ℕ → Bool) : Prop :=
  ∀ i < obss.length,
    (((obss.getD i default).startSlotIdx).map (fun s => boolToNat (y i s))).sum ≤ 1

instance (obss : List ObsRow) (y : ℕ → ℕ → Bool) :
    Decidable (singleStartHolds obss y) := by
  unfold singleStartHolds
  infer_instance

/-- The left-hand side of slot `t`'s no-double-booking constraint as built by
`lco_solver.schedule` lines 59-76: sum of `y[i][s]` over all observation/start
pairs whose (lco-computed) occupancy window covers `t`. -/
def lcoSlotExpr (obss : List ObsRow) (L : ℚ) (y : ℕ → ℕ → Bool) (t : ℕ) : ℕ :=
  ((List.range obss.length).map (fun i =>
    (((obss.getD i default).startSlotIdx).map (fun s =>
      if lcoCovers (obss.getD i default).obsTime L s t then boolToNat (y i s)
      else 0)).sum)).sum

/-- Constraint family B as built by `lco_solver.schedule`: every timeslot's
constraint expression is at most 1. -/
def lcoNoDoubleBookHolds (obss : List ObsRow) (L : ℚ) (numSlots : ℕ)
    (y : ℕ → ℕ → Bool) : Prop :=
  ∀ t < numSlots, lcoSlotExpr obss L y t ≤ 1

/-- The (timeslot, observation) pairs visited by the decoding loop of
`lco_solver.schedule` lines 98-107, in iteration order: timeslot indices
ascending, and for each, the observations whose variable at that slot is
set. -/
def decodePairs (obss : List ObsRow) (numSlots : ℕ) (y : ℕ → ℕ → Bool) :
    List (ℕ × ℕ) :=
  (List.range numSlots).flatMap (fun tIdx =>
    (List.range obss.length).filterMap (fun i =>
      if tIdx ∈ (obss.getD i default).startSlotIdx ∧ y i tIdx then some (tIdx, i)
      else none))

/-- One decode fill (`lco_solver.schedule` lines 109-110): starting at the
chosen slot `p.1`, write observation `p.2` into the `int(ceil(obs_time / L))`
consecutive slots; a later write overwrites an earlier one, as in the Python
dict `final_schedule`. -/
def decodeFill (obss : List ObsRow) (L : ℚ) (sched : ℕ → Option ℕ)
    (p : ℕ × ℕ) : ℕ → Option ℕ :=
  fun slot =>
    if p.1 ≤ slot ∧ (slot : ℤ) < p.1 + slotsNeeded (obss.getD p.2 default).obsTime L
    then some p.2 else sched slot

/-- The decoded schedule of `lco_solver.schedule` lines 98-111. -/
def decodeSchedule (obss : List ObsRow) (L : ℚ) (numSlots : ℕ)
    (y : ℕ → ℕ → Bool) : ℕ → Option ℕ :=
  (decodePairs obss numSlots y).foldl (decodeFill obss L) (fun _ => none)

/-- The no-overlap property C1 claims for every assignment satisfying
families A and B: the occupancy runs `[s, s + slots_needed)` of distinct
chosen (observation, start) pairs are pairwise disjoint. -/
def chosenRunsDisjoint (obss : List ObsRow) (L : ℚ) (y : ℕ → ℕ → Bool) : Prop :=
  ∀ i < obss.length, ∀ j < obss.length,
    ∀ s ∈ (obss.getD i default).startSlotIdx,
      ∀ s2 ∈ (obss.getD j default).startSlotIdx,
        y i s → y j s2 → (i, s) ≠ (j, s2) →
          min ((s : ℤ) + slotsNeeded (obss.getD i default).obsTime L)
              ((s2 : ℤ) + slotsNeeded (obss.getD j default).obsTime L) ≤
            max (s : ℤ) (s2 : ℤ)

/-- Counterexample data for C1: two 400-second observations on the default
300-second, 6-slots-per-site grid, one allowed to start only at slot 0, the
other only at slot 1. -/
def cxObs : List ObsRow :=
  [{ band := "1", startSlotIdx := [0], obsTime := 400 },
   { band := "1", startSlotIdx := [1], obsTime := 400 }]

/-- Counterexample assignment: observation 0 starts at slot 0 and
observation 1 at slot 1. -/
def cxAssign (i s : ℕ) : Bool := (i == 0 && s == 0) || (i == 1 && s == 1)

lemma cx_pairs : decodePairs cxObs 12 cxAssign = [(0, 0), (1, 1)] := by
  decide

lemma cx_slotExpr (t : ℕ) :
    lcoSlotExpr cxObs 300 cxAssign t =
      (if t = 0 then 1 else 0) + (if t = 1 then 1 else 0) := by
  have h1 : ∀ s : ℕ, lcoCovers 400 300 s t ↔ (s ≤ t ∧ (t : ℤ) < s + 1) := by
    intro s
    rw [lcoCovers, lcoConstraintSlots_400_300]
  simp only [lcoSlotExpr, cxObs, cxAssign]
  simp [List.range_succ, h1, boolToNat]
  split_ifs <;> omega

lemma cx_decode_zero : decodeSchedule cxObs 300 12 cxAssign 0 = some 0 := by
  rw [decodeSchedule, cx_pairs]
  simp only [List.foldl_cons, List.foldl_nil, decodeFill, cxObs]
  norm_num [slotsNeeded_400_300]

lemma cx_decode_one : decodeSchedule cxObs 300 12 cxAssign 1 = some 1 := by
  rw [decodeSchedule, cx_pairs]
  simp only [List.foldl_cons, List.foldl_nil, decodeFill, cxObs]
  norm_num [slotsNeeded_400_300]

/-- C1: counterexample.  The assignment `cxAssign` (two 400-second
observations starting at slots 0 and 1 of a 300-second grid) satisfies
constraint families A and B exactly as `lco_solver.schedule` builds them, yet
the two chosen runs are NOT disjoint: each observation needs
`int(ceil(400/300)) = 2` slots, so the runs `[0, 2)` and `[1, 3)` share
slot 1 — family B failed to exclude the assignment because it measures
occupancy with `ceil(int(400/300)) = 1` slot.  Decoding fills slot 1 twice:
the dict write for observation 1 overwrites the one for observation 0 (a tie
the claim says cannot occur), leaving observation 0 with a truncated run. -/
theorem lco_constraints_admit_decode_overlap :
    singleStartHolds cxObs cxAssign ∧
    lcoNoDoubleBookHolds cxObs 300 12 cxAssign ∧
    ¬ chosenRunsDisjoint cxObs 300 cxAssign ∧
    decodeSchedule cxObs 300 12 cxAssign 0 = some 0 ∧
    decodeSchedule cxObs 300 12 cxAssign 1 = some 1 ∧
    slotsNeeded 400 300 = 2 := by
  refine ⟨?_, ?_, ?_, cx_decode_zero, cx_decode_one, slotsNeeded_400_300⟩
  · decide
  · intro t ht
    rw [cx_slotExpr]
    split_ifs <;> omega
  · intro h
    have h2 := h 0 (by norm_num [cxObs]) 1 (by norm_num [cxObs]) 0
      (by simp [cxObs]) 1 (by simp [cxObs]) (by decide) (by decide) (by decide)
    simp only [cxObs, List.getD_cons_zero, List.getD_cons_succ] at h2
    rw [slotsNeeded_400_300] at h2
    omega

/-- Modelled from the spec: the objective of `cbc_solver.py`.  That file — the
quality-weighted solver imported by `examples.py`, `timeslot_metric_example.py`
and `comparative_solver.py` (`from cbc_solver import *`) — is missing from the
repository snapshot; only its callers are present.  Per spec §4.4 the
coefficient on `y[i][s]` is `priority(i) * quality(s)`, the start candidates
being `common.py` `TS` values carrying a `metric_score` quality (the
derivation is also recorded in `timeslot_metric_example.py` lines 39-45). -/
def objectiveValue (prio : List ℚ) (slots : List (List TS))
    (y : ℕ → ℕ → Bool) : ℚ :=
  ((List.range slots.length).map (fun i =>
    ((slots.getD i []).map (fun ts =>
      if y i ts.timeslotIdx then prio.getD i 0 * ts.metricScore else 0)).sum)).sum

/-- Modelled from the spec: the start actually chosen for an observation — the
first start candidate whose decision variable is 1 (unique when the
single-start constraint holds). -/
def chosenStart (slots : List TS) (yi : ℕ → Bool) : Option TS :=
  slots.find? (fun ts => yi ts.timeslotIdx)

/-- Modelled from the spec: the Score recomputed from the decoded schedule —
the sum, over the observations actually scheduled, of
`priority(observation) * quality(start_candidate_used)` (spec §3 "Score"). -/
def scheduledScore (prio : List ℚ) (slots : List (List TS))
    (y : ℕ → ℕ → Bool) : ℚ :=
  ((List.range slots.length).map (fun i =>
    match chosenStart (slots.getD i []) (y i) with
    | some ts => prio.getD i 0 * ts.metricScore
    | none => 0)).sum

lemma sum_single_choice (l : List TS) (p : ℕ → Bool) (coef : TS → ℚ)
    (h : l.countP (fun ts => p ts.timeslotIdx) ≤ 1) :
    (l.map (fun ts => if p ts.timeslotIdx then coef ts else 0)).sum =
      match l.find? (fun ts => p ts.timeslotIdx) with
      | some ts => coef ts
      | none => 0 := by
  induction l with
  | nil => simp
  | cons a l ih =>
    rw [List.countP_cons] at h
    by_cases ha : p a.timeslotIdx
    · have hzero : l.countP (fun ts => p ts.timeslotIdx) = 0 := by
        simp only [ha, if_pos] at h
        omega
      have hrest : (l.map (fun ts => if p ts.timeslotIdx then coef ts else 0)).sum = 0 := by
        refine List.sum_eq_zero ?_
        intro x hx
        obtain ⟨ts, hts, rfl⟩ := List.mem_map.mp hx
        have := List.countP_eq_zero.mp hzero ts hts
        simp only [this, if_false]
        simp at this
        simp [this]
      rw [List.map_cons, List.sum_cons,
        show List.find? (fun ts => p ts.timeslotIdx) (a :: l) = some a from
          List.find?_cons_of_pos _ ha, hrest, if_pos ha, add_zero]
    · have h2 : l.countP (fun ts => p ts.timeslotIdx) ≤ 1 := by
        simp only [ha, if_neg] at h
        omega
      rw [List.map_cons, List.sum_cons,
        show List.find? (fun ts => p ts.timeslotIdx) (a :: l) =
            List.find? (fun ts => p ts.timeslotIdx) l from
          List.find?_cons_of_neg _ (by simpa using ha),
        if_neg ha, zero_add]
      exact ih h2

/-- C3: for the quality-weighted formulation, the objective handed to the
solver carries the coefficient `priority(i) * quality(s)` on `y[i][s]` (this
is how `objectiveValue` is assembled), and for every 0/1 assignment satisfying
the single-start constraint family A its value — the Score the solver echoes
back with the decoded schedule — equals the sum of
`priority × quality-of-the-chosen-start` over the observations actually
scheduled. -/
theorem objective_equals_scheduled_score (prio : List ℚ)
    (slots : List (List TS)) (y : ℕ → ℕ → Bool)
    (hA : ∀ i < slots.length,
      (slots.getD i []).countP (fun ts => y i ts.timeslotIdx) ≤ 1) :
    objectiveValue prio slots y = scheduledScore prio slots y := by
  unfold objectiveValue scheduledScore
  congr 1
  refine List.map_congr_left ?_
  intro i hi
  rw [chosenStart]
  exact sum_single_choice _ _ _ (hA i (List.mem_range.mp hi))

/-- Witness for `objective_equals_scheduled_score`: two observations with
priorities 2 and 3; the first has start candidates at slots 0 (quality 1/2)
and 2 (quality 1), the second one candidate at slot 1 (quality 1/4); the
assignment schedules only observation 0 at slot 2. -/
theorem objective_equals_scheduled_score_witness :
    (∀ i < ([[⟨0, 1/2⟩, ⟨2, 1⟩], [⟨1, 1/4⟩]] : List (List TS)).length,
      (([[⟨0, 1/2⟩, ⟨2, 1⟩], [⟨1, 1/4⟩]] : List (List TS)).getD i []).countP
        (fun ts => (fun i s => i == 0 && s == 2) i ts.timeslotIdx) ≤ 1) ∧
    objectiveValue [2, 3] [[⟨0, 1/2⟩, ⟨2, 1⟩], [⟨1, 1/4⟩]]
        (fun i s => i == 0 && s == 2) =
      scheduledScore [2, 3] [[⟨0, 1/2⟩, ⟨2, 1⟩], [⟨1, 1/4⟩]]
        (fun i s => i == 0 && s == 2) :=
  ⟨by decide,
   objective_equals_scheduled_score [2, 3] [[⟨0, 1/2⟩, ⟨2, 1⟩], [⟨1, 1/4⟩]]
     (fun i s => i == 0 && s == 2) (by decide)⟩

end Scheduler
